import Mathlib

/-!
Verification development for the x-fileserver upload pipeline.

The Go handlers (handler_upload_video.go, handler_upload_thumbnail.go,
handler_video_meta.go) are shallowly embedded as pure Lean functions.
External effects (ffmpeg/ffprobe process runs, S3 puts, database updates,
presigning, file creation/removal) are modelled by an environment record
carrying the outcome of each external call, and each handler run produces
an ordered trace of events, over which the temporal and cleanup
properties are stated.  Go float64 arithmetic in the aspect-ratio check
is modelled by exact rational arithmetic.
-/

/-- The database video record (internal/database.Video); only the fields
the handlers touch are modelled. -/
structure Video where
  id : Nat
  userID : Nat
  thumbnailURL : Option String
  videoURL : Option String
deriving DecidableEq

/-- An external process invocation, identified by which command of the
source it is, together with its file arguments. -/
inductive ProcCall where
  | ffmpegRemux (input output : String)
  | ffmpegReencode (input output : String)
  | ffprobe (input : String)
deriving DecidableEq

/-- The argv of the remux attempt in processVideoForFastStart. -/
def remuxArgv (input output : String) : List String :=
  ["ffmpeg", "-i", input, "-map", "0:v", "-map", "0:a?", "-c", "copy",
   "-movflags", "faststart", output]

/-- The argv of the re-encode fallback in processVideoForFastStart. -/
def reencodeArgv (input output : String) : List String :=
  ["ffmpeg", "-i", input, "-vf", "setsar=1", "-c:v", "libx264", "-crf", "18",
   "-preset", "veryfast", "-c:a", "copy", "-movflags", "faststart", output]

/-- The argv of the probe in getVideoAspectRatio. -/
def ffprobeArgv (input : String) : List String :=
  ["ffprobe", "-v", "error", "-print_format", "json", "-show_streams", input]

/-- The command line a ProcCall stands for. -/
def argvOf : ProcCall → List String
  | ProcCall.ffmpegRemux i o => remuxArgv i o
  | ProcCall.ffmpegReencode i o => reencodeArgv i o
  | ProcCall.ffprobe i => ffprobeArgv i

/-- One observable effect of a handler run, in program order. -/
inductive Event where
  | procRun (c : ProcCall)
  | fileCreate (path : String)
  | fileWrite (path : String) (bytes : Nat)
  | fileRemove (path : String)
  | s3Put (bucket key contentType : String) (ok : Bool)
  | dbUpdate (v : Video) (ok : Bool)
  | presign (bucket key : String) (expiryMinutes : Nat) (ok : Bool)
deriving DecidableEq

/-- Why a run failed, when the cause matters to a claim: the
http.MaxBytesReader bound was exceeded, or anything else. -/
inductive FailCause where
  | maxBytesExceeded
  | other
deriving DecidableEq

/-- The outcome of one handler run: HTTP status, the respondWithError
message (empty on success), the failure cause when tracked, the JSON
body when a video record is returned, and the effect trace. -/
structure RunResult where
  status : Nat
  msg : String
  cause : Option FailCause
  body : Option Video
  events : List Event
deriving DecidableEq

/-- Builds a failing RunResult. -/
def failRun (st : Nat) (m : String) (c : Option FailCause) (evs : List Event) : RunResult :=
  { status := st, msg := m, cause := c, body := none, events := evs }

/-- Event discriminator: a database update (attempted or committed). -/
def isDbUpdateEv : Event → Bool
  | Event.dbUpdate _ _ => true
  | _ => false

/-- Event discriminator: a successful S3 PutObject. -/
def isPutSuccessEv : Event → Bool
  | Event.s3Put _ _ _ true => true
  | _ => false

/-- Event discriminator: any S3 PutObject attempt. -/
def isS3PutEv : Event → Bool
  | Event.s3Put _ _ _ _ => true
  | _ => false

/-- Event discriminator: a presign call. -/
def isPresignEv : Event → Bool
  | Event.presign _ _ _ _ => true
  | _ => false

/-- Event discriminator: a process invocation. -/
def isProcRunEv : Event → Bool
  | Event.procRun _ => true
  | _ => false

/-- Event discriminator: a file creation. -/
def isFileCreateEv : Event → Bool
  | Event.fileCreate _ => true
  | _ => false

/-- Event discriminator: a file write. -/
def isFileWriteEv : Event → Bool
  | Event.fileWrite _ _ => true
  | _ => false

/-- All database update attempts in a trace, with their success flag. -/
def dbUpdates (t : List Event) : List (Video × Bool) :=
  t.filterMap fun e => match e with
    | Event.dbUpdate v ok => some (v, ok)
    | _ => none

/-- All committed database updates in a trace. -/
def dbCommits (t : List Event) : List Video :=
  t.filterMap fun e => match e with
    | Event.dbUpdate v true => some v
    | _ => none

/-- All process invocations in a trace. -/
def procsOf (t : List Event) : List ProcCall :=
  t.filterMap fun e => match e with
    | Event.procRun c => some c
    | _ => none

/-- How one event changes the set (list) of files on disk. -/
def fileStep (acc : List String) (e : Event) : List String :=
  match e with
  | Event.fileCreate p => acc ++ [p]
  | Event.fileRemove p => acc.filter (fun q => q ≠ p)
  | _ => acc

/-- The files on disk after replaying a trace from a starting set. -/
def filesAux (init : List String) (t : List Event) : List String :=
  t.foldl fileStep init

/-- The files still on disk after replaying a trace's file events. -/
def filesRemaining (t : List Event) : List String :=
  filesAux [] t

/-- The URL-safe base64 alphabet (RFC 4648 section 5), as used by Go's
base64.RawURLEncoding. -/
def b64Chars : List Char :=
  ("ABCDEFGHIJKLMNOPQRSTUVWXYZabcdefghijklmnopqrstuvwxyz0123456789-_").data

/-- The character a 6-bit group encodes to. -/
def b64Char (n : Nat) : Char :=
  b64Chars.getD n 'A'

/-- The 6-bit group a character decodes to. -/
def b64CharIndex (c : Char) : Nat :=
  b64Chars.indexOf c

/-- Bytes to 6-bit groups, as in base64 raw (unpadded) encoding. -/
def b64EncodeNats : List Nat → List Nat
  | [] => []
  | [b0] => [b0 / 4, b0 % 4 * 16]
  | [b0, b1] => [b0 / 4, b0 % 4 * 16 + b1 / 16, b1 % 16 * 4]
  | b0 :: b1 :: b2 :: rest =>
      b0 / 4 :: (b0 % 4 * 16 + b1 / 16) :: (b1 % 16 * 4 + b2 / 64) :: b2 % 64 ::
        b64EncodeNats rest

/-- 6-bit groups back to bytes (inverse of b64EncodeNats on valid input). -/
def b64DecodeNats : List Nat → List Nat
  | [] => []
  | [_] => []
  | [c0, c1] => [c0 * 4 + c1 / 16]
  | [c0, c1, c2] => [c0 * 4 + c1 / 16, c1 % 16 * 16 + c2 / 4]
  | c0 :: c1 :: c2 :: c3 :: rest =>
      (c0 * 4 + c1 / 16) :: (c1 % 16 * 16 + c2 / 4) :: (c2 % 4 * 64 + c3) ::
        b64DecodeNats rest

/-- base64.RawURLEncoding.EncodeToString on a byte list. -/
def base64RawURLEncode (bytes : List Nat) : String :=
  String.mk ((b64EncodeNats bytes).map b64Char)

/-- Walks a path's characters from the end (first argument is the
reversed path), accumulating the already-passed suffix; stops at a path
separator with no extension, or at a dot returning the extension. -/
def extRevAux : List Char → List Char → List Char
  | [], _ => []
  | c :: rest, acc =>
      if c = '/' then []
      else if c = '.' then c :: acc
      else extRevAux rest (c :: acc)

/-- filepath.Ext: the suffix of the last element of path starting at the
final dot; empty when there is no dot. -/
def filepathExt (p : String) : String :=
  String.mk (extRevAux p.data.reverse [])

/-- strings.SplitN(s, ",", 2): one part when s has no comma, otherwise
the part before the first comma and everything after it. -/
def splitN2 (s : String) : List String :=
  match s.data.findIdx? (fun c => c = ',') with
  | none => [s]
  | some i => [String.mk (s.data.take i), String.mk (s.data.drop (i + 1))]

/-- What the ffprobe invocation in getVideoAspectRatio yielded: the
process failed, its output did not unmarshal, or it reported a stream
list with width/height pairs. -/
inductive ProbeOutcome where
  | procFail
  | unparsable
  | streams (ss : List (Int × Int))
deriving DecidableEq

/-- getVideoAspectRatio (handler_upload_video.go lines 33-70), given the
probe outcome; returns "16:9", "9:16" or "other", or an error when the
process failed or its output did not parse.  The Go float64 ratio
float64(width)/float64(height) and the literals 1.7, 1.8, 0.55, 0.6 are
modelled by exact rationals. -/
def getVideoAspectRatio (pr : ProbeOutcome) : Except String String :=
  match pr with
  | ProbeOutcome.procFail => Except.error "ffprobe failed"
  | ProbeOutcome.unparsable => Except.error "unmarshal failed"
  | ProbeOutcome.streams [] => Except.ok "other"
  | ProbeOutcome.streams ((w, h) :: _) =>
      if w = 0 ∨ h = 0 then Except.ok "other"
      else
        let ratio : ℚ := (w : ℚ) / (h : ℚ)
        if 17/10 < ratio ∧ ratio < 9/5 then Except.ok "16:9"
        else if 11/20 < ratio ∧ ratio < 3/5 then Except.ok "9:16"
        else Except.ok "other"

/-- The handler's switch from aspect string to key segment
(handler_upload_video.go lines 257-265). -/
def orientSegmentFor (aspect : String) : String :=
  if aspect = "16:9" then "landscape/"
  else if aspect = "9:16" then "portrait/"
  else "other/"

/-- Aspect probing then the handler's switch: a failed probe degrades
the aspect to "other" rather than failing the run. -/
def orientSegment (pr : ProbeOutcome) : String :=
  match getVideoAspectRatio pr with
  | Except.error _ => orientSegmentFor "other"
  | Except.ok a => orientSegmentFor a

/-- The storage key built in handlerUploadVideo lines 267-275: the
orientation segment, then the raw URL-safe base64 of the random bytes,
then the original filename's extension. -/
def deriveKey (seg : String) (bytes : List Nat) (filename : String) : String :=
  seg ++ base64RawURLEncode bytes ++ filepathExt filename

/-- Environment of one handlerUploadVideo run: the outcome of every
external call the handler makes, in program order.  A Bool field is the
success of the corresponding fallible call; remuxLeftoverFile and
reencodeLeftoverFile say whether a FAILED ffmpeg attempt left a partial
output file on disk (the external process may do either). -/
structure UploadEnv where
  videoIDOk : Bool
  bearerOk : Bool
  jwtOk : Bool
  userID : Nat
  videoFound : Bool
  videoRecord : Video
  bodySize : Nat
  parseFormOk : Bool
  formFileOk : Bool
  fileSize : Nat
  filename : String
  ctParseOk : Bool
  mediaType : String
  createTempOk : Bool
  copyOk : Bool
  remuxOk : Bool
  remuxLeftoverFile : Bool
  remuxStderr : String
  reencodeOk : Bool
  reencodeLeftoverFile : Bool
  reencodeErrMsg : String
  reencodeStderr : String
  openProcessedOk : Bool
  probe : ProbeOutcome
  randOk : Bool
  randomBytes : List Nat
  s3Bucket : String
  putOk : Bool
  updateOk : Bool
  presignOk : Bool
  presignURL : String

/-- The 1 GiB bound handlerUploadVideo passes to http.MaxBytesReader. -/
def maxUploadBytes : Nat := 2 ^ 30

/-- The name os.CreateTemp gives the staged upload in this model. -/
def tempFileName : String := "tubely-upload.mp4"

/-- processVideoForFastStart (handler_upload_video.go lines 73-116):
remux attempt first; on remux failure exactly one re-encode fallback;
on double failure an error carrying the re-encode diagnostic.  Returns
the chosen output path (or error) and the trace of process runs and
output-file creations. -/
def processVideoForFastStart (env : UploadEnv) (filePath : String) :
    Except String String × List Event :=
  let outputPath := filePath ++ ".faststart.mp4"
  let remuxEvs : List Event :=
    Event.procRun (ProcCall.ffmpegRemux filePath outputPath) ::
      (if env.remuxOk ∨ env.remuxLeftoverFile then [Event.fileCreate outputPath] else [])
  if env.remuxOk then
    (Except.ok outputPath, remuxEvs)
  else
    let outputPathReencode := filePath ++ ".reencode.mp4"
    let reEvs : List Event :=
      Event.procRun (ProcCall.ffmpegReencode filePath outputPathReencode) ::
        (if env.reencodeOk ∨ env.reencodeLeftoverFile then
          [Event.fileCreate outputPathReencode] else [])
    if env.reencodeOk then
      (Except.ok outputPathReencode, remuxEvs ++ reEvs)
    else
      (Except.error ("ffmpeg re-encode failed: " ++ env.reencodeErrMsg ++
          ", details: " ++ env.reencodeStderr),
        remuxEvs ++ reEvs)

/-- dbVideoToSignedVideo (handler_upload_video.go lines 136-154): nil or
empty reference passes through; a reference that does not split into two
parts at a comma is an error with the record unchanged; otherwise a
presigned URL for (bucket, key) with 15-minute expiry replaces the
reference in the RETURNED copy only.  Returns ((video, error), trace). -/
def dbVideoToSignedVideo (signOk : Bool) (signURL : String) (v : Video) :
    (Video × Option String) × List Event :=
  match v.videoURL with
  | none => ((v, none), [])
  | some s =>
      if s = "" then ((v, none), [])
      else
        let parts := splitN2 s
        if parts.length ≠ 2 then ((v, some "invalid video_url format"), [])
        else
          let bucket := parts.getD 0 ""
          let key := parts.getD 1 ""
          let ev := Event.presign bucket key 15 signOk
          let v2 : Video :=
            { id := v.id, userID := v.userID,
              thumbnailURL := v.thumbnailURL, videoURL := some signURL }
          if signOk then ((v2, none), [ev])
          else ((v, some "failed to presign"), [ev])

/-- The tail of handlerUploadVideo from os.Open(processedPath) on
(handler_upload_video.go lines 239-296): probe, key derivation,
PutObject, record update, response signing.  pre is the trace
accumulated before this point; the two deferred os.Remove calls run on
every exit path, in LIFO order (processed output first, then the
staged temp file). -/
def uploadFromProcessed (env : UploadEnv) (pre : List Event) (processedPath : String) :
    RunResult :=
  let evRemoveProcessed : List Event := [Event.fileRemove processedPath]
  let evRemoveTemp : List Event := [Event.fileRemove tempFileName]
  if env.openProcessedOk = false then
    failRun 500 "Failed to open processed file" none
      (pre ++ evRemoveProcessed ++ evRemoveTemp)
  else
    let evProbe : List Event := [Event.procRun (ProcCall.ffprobe processedPath)]
    if env.randOk = false then
      failRun 500 "Failed to generate random key" none
        (pre ++ evProbe ++ evRemoveProcessed ++ evRemoveTemp)
    else
      let key := deriveKey (orientSegment env.probe) env.randomBytes env.filename
      let evPut : List Event :=
        [Event.s3Put env.s3Bucket key env.mediaType env.putOk]
      if env.putOk = false then
        failRun 500 "Failed to upload video to S3" none
          (pre ++ evProbe ++ evPut ++ evRemoveProcessed ++ evRemoveTemp)
      else
        let stored := env.s3Bucket ++ "," ++ key
        let updated : Video :=
          { id := env.videoRecord.id, userID := env.videoRecord.userID,
            thumbnailURL := env.videoRecord.thumbnailURL, videoURL := some stored }
        let evUpd : List Event := [Event.dbUpdate updated env.updateOk]
        if env.updateOk = false then
          failRun 500 "Failed to update video record" none
            (pre ++ evProbe ++ evPut ++ evUpd ++ evRemoveProcessed ++ evRemoveTemp)
        else
          let signed := dbVideoToSignedVideo env.presignOk env.presignURL updated
          match signed.1.2 with
          | some _ =>
              failRun 500 "Failed to generate presigned URL" none
                (pre ++ evProbe ++ evPut ++ evUpd ++ signed.2 ++
                  evRemoveProcessed ++ evRemoveTemp)
          | none =>
              { status := 200, msg := "", cause := none,
                body := some signed.1.1,
                events := pre ++ evProbe ++ evPut ++ evUpd ++ signed.2 ++
                  evRemoveProcessed ++ evRemoveTemp }

/-- handlerUploadVideo (handler_upload_video.go lines 156-296) as a
function of its environment: request validation, auth, ownership,
multipart parsing, staging, normalization, then uploadFromProcessed. -/
def runUploadVideo (env : UploadEnv) : RunResult :=
  if env.videoIDOk = false then failRun 400 "Invalid video ID" none []
  else if env.bearerOk = false then failRun 401 "Couldn't find JWT" none []
  else if env.jwtOk = false then failRun 401 "Couldn't validate JWT" none []
  else if env.videoFound = false then failRun 404 "Video not found" none []
  else if env.videoRecord.userID ≠ env.userID then
    failRun 401 "Not the owner of this video" none []
  else if maxUploadBytes < env.bodySize then
    failRun 400 "Failed to parse form" (some FailCause.maxBytesExceeded) []
  else if env.parseFormOk = false then
    failRun 400 "Failed to parse form" (some FailCause.other) []
  else if env.formFileOk = false then failRun 400 "Missing video file" none []
  else if env.ctParseOk = false then failRun 400 "Invalid Content-Type" none []
  else if env.mediaType ≠ "video/mp4" then
    failRun 400 "Unsupported video type" none []
  else if env.createTempOk = false then
    failRun 500 "Failed to create temp file" none []
  else
    let evCreate : List Event := [Event.fileCreate tempFileName]
    let evRemoveTemp : List Event := [Event.fileRemove tempFileName]
    if env.copyOk = false then
      failRun 500 "Failed to save temp file" none (evCreate ++ evRemoveTemp)
    else
      let evWrite : List Event := [Event.fileWrite tempFileName env.fileSize]
      let norm := processVideoForFastStart env tempFileName
      match norm.1 with
      | Except.error _ =>
          failRun 500 "Failed to process video for fast start" none
            (evCreate ++ evWrite ++ norm.2 ++ evRemoveTemp)
      | Except.ok processedPath =>
          uploadFromProcessed env (evCreate ++ evWrite ++ norm.2) processedPath

/-- Environment of one handlerUploadThumbnail run. -/
structure ThumbEnv where
  videoIDOk : Bool
  bearerOk : Bool
  jwtOk : Bool
  userID : Nat
  parseFormOk : Bool
  formFileOk : Bool
  fileSize : Nat
  ctParseOk : Bool
  mediaType : String
  videoFound : Bool
  videoRecord : Video
  randOk : Bool
  randomBytes : List Nat
  assetsRoot : String
  port : String
  createOk : Bool
  copyOk : Bool
  updateOk : Bool

/-- handlerUploadThumbnail (handler_upload_thumbnail.go) as a function
of its environment; filepath.Join is modelled as separator
concatenation. -/
def runUploadThumbnail (env : ThumbEnv) : RunResult :=
  if env.videoIDOk = false then failRun 400 "Invalid video ID" none []
  else if env.bearerOk = false then failRun 401 "Couldn't find JWT" none []
  else if env.jwtOk = false then failRun 401 "Couldn't validate JWT" none []
  else if env.parseFormOk = false then failRun 400 "Failed to parse form" none []
  else if env.formFileOk = false then failRun 400 "Missing thumbnail file" none []
  else if env.videoFound = false then failRun 404 "Video not found" none []
  else if env.videoRecord.userID ≠ env.userID then
    failRun 401 "Not the owner of this video" none []
  else if env.ctParseOk = false then failRun 400 "Invalid Content-Type" none []
  else if env.mediaType ≠ "image/png" ∧ env.mediaType ≠ "image/jpeg" then
    failRun 400 "Unsupported thumbnail type" none []
  else
    let ext := if env.mediaType = "image/png" then ".png" else ".jpg"
    if env.randOk = false then
      failRun 500 "Failed to generate random filename" none []
    else
      let fileName := base64RawURLEncode env.randomBytes ++ ext
      let filePath := env.assetsRoot ++ "/" ++ fileName
      if env.createOk = false then failRun 500 "Failed to create file" none []
      else
        let evs1 : List Event := [Event.fileCreate filePath]
        if env.copyOk = false then failRun 500 "Failed to save file" none evs1
        else
          let evs2 := evs1 ++ [Event.fileWrite filePath env.fileSize]
          let url := "http://localhost:" ++ env.port ++ "/assets/" ++ fileName
          let updated : Video :=
            { id := env.videoRecord.id, userID := env.videoRecord.userID,
              thumbnailURL := some url, videoURL := env.videoRecord.videoURL }
          let evs3 := evs2 ++ [Event.dbUpdate updated env.updateOk]
          if env.updateOk = false then failRun 500 "Failed to update video" none evs3
          else
            { status := 200, msg := "", cause := none, body := some updated,
              events := evs3 }

/-- Environment of one handlerVideoGet run (handler_video_meta.go lines
184-206, the variant that signs on read). -/
structure GetEnv where
  videoIDOk : Bool
  videoFound : Bool
  videoRecord : Video
  presignOk : Bool
  presignURL : String

/-- handlerVideoGet as a function of its environment: look the record
up, convert it through dbVideoToSignedVideo, respond. -/
def runVideoGet (env : GetEnv) : RunResult :=
  if env.videoIDOk = false then failRun 400 "Invalid video ID" none []
  else if env.videoFound = false then failRun 404 "Video not found" none []
  else
    let signed := dbVideoToSignedVideo env.presignOk env.presignURL env.videoRecord
    match signed.1.2 with
    | some _ => failRun 500 "Failed to sign video URL" none signed.2
    | none =>
        { status := 200, msg := "", cause := none, body := some signed.1.1,
          events := signed.2 }

/-- Decoding a base64 character recovers its 6-bit group. -/
theorem b64_char_roundtrip : ∀ n, n < 64 → b64CharIndex (b64Char n) = n := by decide

/-- Decoding the 6-bit groups of an encoded byte list recovers it. -/
theorem b64_decode_encode (bytes : List Nat) (h : ∀ b ∈ bytes, b < 256) :
    b64DecodeNats (b64EncodeNats bytes) = bytes := by
  induction bytes using b64EncodeNats.induct with
  | case1 => rfl
  | case2 b0 =>
      have hb0 : b0 < 256 := h b0 (by simp)
      simp [b64EncodeNats, b64DecodeNats]
      omega
  | case3 b0 b1 =>
      have hb0 : b0 < 256 := h b0 (by simp)
      have hb1 : b1 < 256 := h b1 (by simp)
      simp [b64EncodeNats, b64DecodeNats]
      omega
  | case4 b0 b1 b2 rest ih =>
      have hb0 : b0 < 256 := h b0 (by simp)
      have hb1 : b1 < 256 := h b1 (by simp)
      have hb2 : b2 < 256 := h b2 (by simp)
      have hrest : ∀ b ∈ rest, b < 256 := fun b hb => h b (by simp [hb])
      simp [b64EncodeNats, b64DecodeNats, ih hrest]
      omega

/-- The 6-bit groups of a valid byte list are below 64. -/
theorem b64EncodeNats_lt64 (bytes : List Nat) (h : ∀ b ∈ bytes, b < 256) :
    ∀ c ∈ b64EncodeNats bytes, c < 64 := by
  induction bytes using b64EncodeNats.induct with
  | case1 => simp [b64EncodeNats]
  | case2 b0 =>
      have hb0 : b0 < 256 := h b0 (by simp)
      simp [b64EncodeNats]
      omega
  | case3 b0 b1 =>
      have hb0 : b0 < 256 := h b0 (by simp)
      have hb1 : b1 < 256 := h b1 (by simp)
      simp [b64EncodeNats]
      omega
  | case4 b0 b1 b2 rest ih =>
      have hb0 : b0 < 256 := h b0 (by simp)
      have hb1 : b1 < 256 := h b1 (by simp)
      have hb2 : b2 < 256 := h b2 (by simp)
      have hrest : ∀ b ∈ rest, b < 256 := fun b hb => h b (by simp [hb])
      simp [b64EncodeNats]
      refine ⟨by omega, by omega, by omega, by omega, ?_⟩
      intro c hc
      exact ih hrest c hc

/-- Mapping encode then decode over characters is the identity on
6-bit groups. -/
theorem b64_map_roundtrip (l : List Nat) (h : ∀ x ∈ l, x < 64) :
    (l.map b64Char).map b64CharIndex = l := by
  induction l with
  | nil => rfl
  | cons x xs ih =>
      have hx : x < 64 := h x (by simp)
      have hxs : ∀ y ∈ xs, y < 64 := fun y hy => h y (by simp [hy])
      simp [b64_char_roundtrip x hx, ih hxs]

/-- b64EncodeNats is injective on valid byte lists. -/
theorem b64EncodeNats_inj (a b : List Nat) (ha : ∀ x ∈ a, x < 256)
    (hb : ∀ x ∈ b, x < 256) (h : b64EncodeNats a = b64EncodeNats b) : a = b := by
  have := congrArg b64DecodeNats h
  rwa [b64_decode_encode a ha, b64_decode_encode b hb] at this

/-- String append concatenates the underlying character lists. -/
theorem string_data_append (a b : String) : (a ++ b).data = a.data ++ b.data := rfl

/-- The number of 6-bit groups of an n-byte list is (4n+2)/3, the
unpadded base64 length. -/
theorem b64EncodeNats_length (l : List Nat) :
    (b64EncodeNats l).length = (4 * l.length + 2) / 3 := by
  induction l using b64EncodeNats.induct with
  | case1 => rfl
  | case2 b0 => simp [b64EncodeNats]
  | case3 b0 b1 => simp [b64EncodeNats]
  | case4 b0 b1 b2 rest ih =>
      simp [b64EncodeNats, ih]
      omega

/-- base64RawURLEncode is injective on valid byte lists. -/
theorem base64RawURLEncode_inj (a b : List Nat) (ha : ∀ x ∈ a, x < 256)
    (hb : ∀ x ∈ b, x < 256) (h : base64RawURLEncode a = base64RawURLEncode b) : a = b := by
  have hd : (b64EncodeNats a).map b64Char = (b64EncodeNats b).map b64Char :=
    congrArg String.data h
  have := congrArg (List.map b64CharIndex) hd
  rw [b64_map_roundtrip _ (b64EncodeNats_lt64 a ha),
      b64_map_roundtrip _ (b64EncodeNats_lt64 b hb)] at this
  exact b64EncodeNats_inj a b ha hb this

/-- Distinct valid random byte lists give distinct keys under the same
orientation segment and filename. -/
theorem deriveKey_inj (seg fn : String) (a b : List Nat) (ha : ∀ x ∈ a, x < 256)
    (hb : ∀ x ∈ b, x < 256) (hne : a ≠ b) :
    deriveKey seg a fn ≠ deriveKey seg b fn := by
  intro h
  apply hne
  have hd := congrArg String.data h
  simp only [deriveKey, string_data_append, List.append_assoc] at hd
  have h1 := List.append_cancel_left hd
  have h2 := List.append_cancel_right h1
  exact base64RawURLEncode_inj a b ha hb (congrArg String.mk h2)

theorem signed_events (ok : Bool) (url : String) (v : Video) :
    (dbVideoToSignedVideo ok url v).2 = []
    ∨ ∃ b k, (dbVideoToSignedVideo ok url v).2 = [Event.presign b k 15 ok] := by
  unfold dbVideoToSignedVideo
  rcases v.videoURL with _ | s
  · left; rfl
  · simp only []
    split_ifs <;> first
      | (left; rfl)
      | (right; exact ⟨_, _, rfl⟩)

theorem norm_events_kinds (env : UploadEnv) (fp : String) :
    ∀ e ∈ (processVideoForFastStart env fp).2,
      isProcRunEv e = true ∨ isFileCreateEv e = true := by
  unfold processVideoForFastStart
  split_ifs <;> intro e he <;> cases e <;>
    simp_all [isProcRunEv, isFileCreateEv]

theorem takeWhile_append_all {p : Event → Bool} {l r : List Event}
    (h : ∀ e ∈ l, p e = true) : (l ++ r).takeWhile p = l ++ r.takeWhile p := by
  induction l with
  | nil => rfl
  | cons x xs ih =>
      have hx : p x = true := h x (by simp)
      simp [List.takeWhile_cons, hx, ih fun e he => h e (by simp [he])]

theorem dbUpdates_append (a b : List Event) :
    dbUpdates (a ++ b) = dbUpdates a ++ dbUpdates b := by
  simp [dbUpdates, List.filterMap_append]

theorem dbUpdates_eq_nil (l : List Event) (h : ∀ e ∈ l, isDbUpdateEv e = false) :
    dbUpdates l = [] := by
  induction l with
  | nil => rfl
  | cons x xs ih =>
      have hx := h x (by simp)
      have hxs := ih fun e he => h e (by simp [he])
      cases x <;> simp_all [dbUpdates, isDbUpdateEv, List.filterMap_cons]

theorem filesAux_append (init : List String) (a b : List Event) :
    filesAux init (a ++ b) = filesAux (filesAux init a) b := by
  simp [filesAux, List.foldl_append]

theorem filter_dbUpdate_nil (l : List Event) (h : ∀ e ∈ l, isDbUpdateEv e = false) :
    (l.filter fun e => isDbUpdateEv e) = [] := by
  induction l with
  | nil => rfl
  | cons x xs ih =>
      have hx := h x (by simp)
      simp [List.filter_cons, hx, ih fun e he => h e (by simp [he])]

theorem stage_dbupdates (env : UploadEnv) (pre : List Event) (p : String)
    (h1 : ∀ e ∈ pre, isDbUpdateEv e = false)
    (h2 : ∀ e ∈ pre, isPutSuccessEv e = false) :
    (dbUpdates (uploadFromProcessed env pre p).events).length ≤ 1
    ∧ (((uploadFromProcessed env pre p).events.takeWhile fun e => ! isPutSuccessEv e).filter
        fun e => isDbUpdateEv e) = []
    ∧ ((dbUpdates (uploadFromProcessed env pre p).events).all fun q =>
        decide (q.1.videoURL = some (env.s3Bucket ++ "," ++
          deriveKey (orientSegment env.probe) env.randomBytes env.filename))) = true := by
  have h2' : ∀ e ∈ pre, (fun e => ! isPutSuccessEv e) e = true := by
    intro e he; simp [h2 e he]
  have hpre0 : dbUpdates pre = [] := dbUpdates_eq_nil pre h1
  have hpref : (pre.filter fun e => isDbUpdateEv e) = [] := filter_dbUpdate_nil pre h1
  unfold uploadFromProcessed
  split_ifs with ho hr hp hu
  · simp only [failRun, List.append_assoc]
    refine ⟨?_, ?_, ?_⟩
    · rw [dbUpdates_append, hpre0]
      simp [dbUpdates, List.filterMap_cons, List.filterMap_append]
    · rw [takeWhile_append_all h2', List.filter_append, hpref]
      simp [List.takeWhile_cons, List.filter_cons, isPutSuccessEv, isDbUpdateEv]
    · rw [dbUpdates_append, hpre0]
      simp [dbUpdates, List.filterMap_cons, List.filterMap_append]
  · simp only [failRun, List.append_assoc]
    refine ⟨?_, ?_, ?_⟩
    · rw [dbUpdates_append, hpre0]
      simp [dbUpdates, List.filterMap_cons, List.filterMap_append]
    · rw [takeWhile_append_all h2', List.filter_append, hpref]
      simp [List.takeWhile_cons, List.filter_cons, isPutSuccessEv, isDbUpdateEv]
    · rw [dbUpdates_append, hpre0]
      simp [dbUpdates, List.filterMap_cons, List.filterMap_append]
  · simp only [failRun, List.append_assoc, hp]
    refine ⟨?_, ?_, ?_⟩
    · rw [dbUpdates_append, hpre0]
      simp [dbUpdates, List.filterMap_cons, List.filterMap_append]
    · rw [takeWhile_append_all h2', List.filter_append, hpref]
      simp [List.takeWhile_cons, List.filter_cons, isPutSuccessEv, isDbUpdateEv]
    · rw [dbUpdates_append, hpre0]
      simp [dbUpdates, List.filterMap_cons, List.filterMap_append]
  · have hp' : env.putOk = true := by revert hp; cases env.putOk <;> simp
    simp only [failRun, List.append_assoc, hp']
    refine ⟨?_, ?_, ?_⟩
    · rw [dbUpdates_append, hpre0]
      simp [dbUpdates, List.filterMap_cons, List.filterMap_append]
    · rw [takeWhile_append_all h2', List.filter_append, hpref]
      simp [List.takeWhile_cons, List.filter_cons, isPutSuccessEv, isDbUpdateEv]
    · rw [dbUpdates_append, hpre0]
      simp [dbUpdates, List.filterMap_cons, List.filterMap_append]
  · have hp' : env.putOk = true := by revert hp; cases env.putOk <;> simp
    have hu' : env.updateOk = true := by revert hu; cases env.updateOk <;> simp
    simp only [failRun]
    rcases signed_events env.presignOk env.presignURL
        { id := env.videoRecord.id, userID := env.videoRecord.userID,
          thumbnailURL := env.videoRecord.thumbnailURL,
          videoURL := some (env.s3Bucket ++ "," ++
            deriveKey (orientSegment env.probe) env.randomBytes env.filename) }
        with hs | ⟨b, k, hs⟩ <;>
      split <;>
      simp only [failRun, hs, hp', hu', List.append_assoc] <;>
      refine ⟨?_, ?_, ?_⟩ <;>
      first
        | (rw [dbUpdates_append, hpre0]
           simp [dbUpdates, List.filterMap_cons, List.filterMap_append])
        | (rw [takeWhile_append_all h2', List.filter_append, hpref]
           simp [List.takeWhile_cons, List.filter_cons, isPutSuccessEv, isDbUpdateEv])

/-- Case analysis of one handlerUploadVideo run: an early exit with an
empty trace, a staging-copy failure, a normalization failure, or the
tail stage reached with the staged trace. -/
theorem run_cases (env : UploadEnv) :
    (runUploadVideo env).events = []
    ∨ runUploadVideo env = failRun 500 "Failed to save temp file" none
        [Event.fileCreate tempFileName, Event.fileRemove tempFileName]
    ∨ (∃ er, (processVideoForFastStart env tempFileName).1 = Except.error er ∧
        runUploadVideo env = failRun 500 "Failed to process video for fast start" none
          ([Event.fileCreate tempFileName] ++
            [Event.fileWrite tempFileName env.fileSize] ++
            (processVideoForFastStart env tempFileName).2 ++
            [Event.fileRemove tempFileName]))
    ∨ (∃ p, (processVideoForFastStart env tempFileName).1 = Except.ok p ∧
        runUploadVideo env = uploadFromProcessed env
          ([Event.fileCreate tempFileName] ++
            [Event.fileWrite tempFileName env.fileSize] ++
            (processVideoForFastStart env tempFileName).2) p) := by
  simp only [runUploadVideo]
  by_cases h1 : env.videoIDOk = false
  · rw [if_pos h1]; left; rfl
  rw [if_neg h1]
  by_cases h2 : env.bearerOk = false
  · rw [if_pos h2]; left; rfl
  rw [if_neg h2]
  by_cases h3 : env.jwtOk = false
  · rw [if_pos h3]; left; rfl
  rw [if_neg h3]
  by_cases h4 : env.videoFound = false
  · rw [if_pos h4]; left; rfl
  rw [if_neg h4]
  by_cases h5 : env.videoRecord.userID ≠ env.userID
  · rw [if_pos h5]; left; rfl
  rw [if_neg h5]
  by_cases h6 : maxUploadBytes < env.bodySize
  · rw [if_pos h6]; left; rfl
  rw [if_neg h6]
  by_cases h7 : env.parseFormOk = false
  · rw [if_pos h7]; left; rfl
  rw [if_neg h7]
  by_cases h8 : env.formFileOk = false
  · rw [if_pos h8]; left; rfl
  rw [if_neg h8]
  by_cases h9 : env.ctParseOk = false
  · rw [if_pos h9]; left; rfl
  rw [if_neg h9]
  by_cases h10 : env.mediaType ≠ "video/mp4"
  · rw [if_pos h10]; left; rfl
  rw [if_neg h10]
  by_cases h11 : env.createTempOk = false
  · rw [if_pos h11]; left; rfl
  rw [if_neg h11]
  by_cases h12 : env.copyOk = false
  · rw [if_pos h12]; right; left; rfl
  rw [if_neg h12]
  rcases hn : (processVideoForFastStart env tempFileName).1 with er | p
  · right; right; left
    exact ⟨er, rfl, rfl⟩
  · right; right; right
    exact ⟨p, rfl, rfl⟩

/-- C1: in handlerUploadVideo the video-reference field is written at
most once per run; every database update in the trace lies beyond the
first successful s3Put, so a failure of any earlier stage commits
nothing; and the value written is always the storage reference
bucket ++ "," ++ derived key — never the presigned URL, which is
minted only later. -/
theorem C1_video_ref_write_discipline (env : UploadEnv) :
    (dbUpdates (runUploadVideo env).events).length ≤ 1
    ∧ (((runUploadVideo env).events.takeWhile fun e => ! isPutSuccessEv e).filter
        fun e => isDbUpdateEv e) = []
    ∧ ((dbUpdates (runUploadVideo env).events).all fun q =>
        decide (q.1.videoURL = some (env.s3Bucket ++ "," ++
          deriveKey (orientSegment env.probe) env.randomBytes env.filename))) = true := by
  have hk := norm_events_kinds env tempFileName
  have hnd : ∀ e ∈ (processVideoForFastStart env tempFileName).2, isDbUpdateEv e = false := by
    intro e he
    rcases hk e he with h | h <;> cases e <;>
      simp_all [isProcRunEv, isFileCreateEv, isDbUpdateEv]
  have hnp : ∀ e ∈ (processVideoForFastStart env tempFileName).2, isPutSuccessEv e = false := by
    intro e he
    rcases hk e he with h | h <;> cases e <;>
      simp_all [isProcRunEv, isFileCreateEv, isPutSuccessEv]
  have h1 : ∀ e ∈ ([Event.fileCreate tempFileName] ++
      [Event.fileWrite tempFileName env.fileSize] ++
      (processVideoForFastStart env tempFileName).2), isDbUpdateEv e = false := by
    intro e he
    rcases List.mem_append.mp he with h | h
    · rcases List.mem_append.mp h with h | h <;>
        (rw [List.mem_singleton.mp h]; simp [isDbUpdateEv])
    · exact hnd e h
  have h2 : ∀ e ∈ ([Event.fileCreate tempFileName] ++
      [Event.fileWrite tempFileName env.fileSize] ++
      (processVideoForFastStart env tempFileName).2), isPutSuccessEv e = false := by
    intro e he
    rcases List.mem_append.mp he with h | h
    · rcases List.mem_append.mp h with h | h <;>
        (rw [List.mem_singleton.mp h]; simp [isPutSuccessEv])
    · exact hnp e h
  rcases run_cases env with hA | hB | ⟨er, hner, hC⟩ | ⟨p, hnok, hD⟩
  · rw [hA]
    simp [dbUpdates]
  · rw [hB]
    refine ⟨?_, ?_, ?_⟩ <;>
      simp [failRun, dbUpdates, List.filterMap_cons, List.takeWhile_cons,
        List.filter_cons, isDbUpdateEv, isPutSuccessEv]
  · rw [hC]
    have hall : ∀ e ∈ ([Event.fileCreate tempFileName] ++
        [Event.fileWrite tempFileName env.fileSize] ++
        (processVideoForFastStart env tempFileName).2 ++
        [Event.fileRemove tempFileName]), isDbUpdateEv e = false := by
      intro e he
      rcases List.mem_append.mp he with h | h
      · exact h1 e h
      · rw [List.mem_singleton.mp h]; simp [isDbUpdateEv]
    refine ⟨?_, ?_, ?_⟩
    · simp only [failRun]
      rw [dbUpdates_eq_nil _ hall]
      simp
    · apply filter_dbUpdate_nil
      intro e he
      exact hall e ((List.takeWhile_prefix _).sublist.subset he)
    · simp only [failRun]
      rw [dbUpdates_eq_nil _ hall]
      simp
  · rw [hD]
    exact stage_dbupdates env _ _ h1 h2

/-- C2: processVideoForFastStart always invokes the remux first; the
re-encode fallback runs exactly once when and only when remux fails;
the result is the remux output on remux success, the re-encode output
on fallback success, and otherwise an error carrying the re-encode
process diagnostic; the two output paths are distinct, so the result
comes from exactly one of the two code paths. -/
theorem C2_faststart_two_phase (env : UploadEnv) (filePath : String) :
    (env.remuxOk = true →
      (processVideoForFastStart env filePath).1 = Except.ok (filePath ++ ".faststart.mp4"))
    ∧ (env.remuxOk = false → env.reencodeOk = true →
      (processVideoForFastStart env filePath).1 = Except.ok (filePath ++ ".reencode.mp4"))
    ∧ (env.remuxOk = false → env.reencodeOk = false →
      (processVideoForFastStart env filePath).1 = Except.error ("ffmpeg re-encode failed: " ++
        env.reencodeErrMsg ++ ", details: " ++ env.reencodeStderr))
    ∧ (procsOf (processVideoForFastStart env filePath).2 =
        if env.remuxOk = true then
          [ProcCall.ffmpegRemux filePath (filePath ++ ".faststart.mp4")]
        else
          [ProcCall.ffmpegRemux filePath (filePath ++ ".faststart.mp4"),
           ProcCall.ffmpegReencode filePath (filePath ++ ".reencode.mp4")])
    ∧ (filePath ++ ".faststart.mp4") ≠ (filePath ++ ".reencode.mp4")
    ∧ argvOf (ProcCall.ffmpegRemux filePath (filePath ++ ".faststart.mp4")) =
        ["ffmpeg", "-i", filePath, "-map", "0:v", "-map", "0:a?", "-c", "copy",
         "-movflags", "faststart", filePath ++ ".faststart.mp4"]
    ∧ argvOf (ProcCall.ffmpegReencode filePath (filePath ++ ".reencode.mp4")) =
        ["ffmpeg", "-i", filePath, "-vf", "setsar=1", "-c:v", "libx264", "-crf", "18",
         "-preset", "veryfast", "-c:a", "copy", "-movflags", "faststart",
         filePath ++ ".reencode.mp4"] := by
  have hne : (filePath ++ ".faststart.mp4") ≠ (filePath ++ ".reencode.mp4") := by
    intro h
    have hd := congrArg String.data h
    simp only [string_data_append] at hd
    have := List.append_cancel_left hd
    simp at this
  refine ⟨?_, ?_, ?_, ?_, hne, rfl, rfl⟩ <;>
    unfold processVideoForFastStart <;>
    split_ifs <;>
    simp_all [procsOf, List.filterMap_cons, List.filterMap_append]

/-- C4: aspect classification is a pure function of probed
width/height: a ratio strictly between 1.7 and 1.8 gives the landscape
key segment, strictly between 0.55 and 0.6 the portrait segment, and
every other positive ratio, a zero width or height, an empty stream
list, a probe-process failure, or unparsable probe output gives
"other/". -/
theorem C4_aspect_classification (w h : Int) (ss : List (Int × Int)) :
    ((17/10 : ℚ) < (w : ℚ) / (h : ℚ) → (w : ℚ) / (h : ℚ) < 9/5 →
      orientSegment (ProbeOutcome.streams ((w, h) :: ss)) = "landscape/")
    ∧ ((11/20 : ℚ) < (w : ℚ) / (h : ℚ) → (w : ℚ) / (h : ℚ) < 3/5 →
      orientSegment (ProbeOutcome.streams ((w, h) :: ss)) = "portrait/")
    ∧ (0 < (w : ℚ) / (h : ℚ) →
      ¬ ((17/10 : ℚ) < (w : ℚ) / (h : ℚ) ∧ (w : ℚ) / (h : ℚ) < 9/5) →
      ¬ ((11/20 : ℚ) < (w : ℚ) / (h : ℚ) ∧ (w : ℚ) / (h : ℚ) < 3/5) →
      orientSegment (ProbeOutcome.streams ((w, h) :: ss)) = "other/")
    ∧ (w = 0 ∨ h = 0 → orientSegment (ProbeOutcome.streams ((w, h) :: ss)) = "other/")
    ∧ orientSegment (ProbeOutcome.streams []) = "other/"
    ∧ orientSegment ProbeOutcome.procFail = "other/"
    ∧ orientSegment ProbeOutcome.unparsable = "other/" := by
  refine ⟨?_, ?_, ?_, ?_, rfl, rfl, rfl⟩
  · intro hlo hhi
    have hwz : ¬ (w = 0 ∨ h = 0) := by
      rintro (rfl | rfl) <;> simp at hlo <;> linarith
    simp [orientSegment, getVideoAspectRatio, orientSegmentFor, hwz, hlo, hhi]
  · intro hlo hhi
    have hwz : ¬ (w = 0 ∨ h = 0) := by
      rintro (rfl | rfl) <;> simp at hlo <;> linarith
    have hnl : ¬ ((17/10 : ℚ) < (w : ℚ) / (h : ℚ) ∧ (w : ℚ) / (h : ℚ) < 9/5) := by
      rintro ⟨ha, hb⟩; linarith
    simp [orientSegment, getVideoAspectRatio, orientSegmentFor, hwz, hlo, hhi, hnl]
  · intro hpos hn1 hn2
    have hwz : ¬ (w = 0 ∨ h = 0) := by
      rintro (rfl | rfl) <;> simp at hpos
    simp [orientSegment, getVideoAspectRatio, orientSegmentFor, hwz, hn1, hn2]
  · intro hz
    simp only [orientSegment, getVideoAspectRatio]
    rw [if_pos hz]
    simp [orientSegmentFor]

/-- C5: a derived storage key is the orientation segment, then the
URL-safe unpadded base64 token of the 32 random bytes, then the
original filename's extension; the segment is always one of
"landscape/", "portrait/", "other/"; the token is 43 characters, the
unpadded base64 length of exactly 32 bytes; and distinct random byte
sequences give distinct keys for the same orientation and filename. -/
theorem C5_key_derivation (pr : ProbeOutcome) (bytes bytes2 : List Nat) (filename : String)
    (hl : bytes.length = 32) (hb : ∀ x ∈ bytes, x < 256)
    (hl2 : bytes2.length = 32) (hb2 : ∀ x ∈ bytes2, x < 256) :
    deriveKey (orientSegment pr) bytes filename =
      orientSegment pr ++ base64RawURLEncode bytes ++ filepathExt filename
    ∧ (orientSegment pr = "landscape/" ∨ orientSegment pr = "portrait/"
        ∨ orientSegment pr = "other/")
    ∧ (base64RawURLEncode bytes).length = 43
    ∧ (base64RawURLEncode bytes2).length = 43
    ∧ (bytes ≠ bytes2 →
        deriveKey (orientSegment pr) bytes filename ≠
          deriveKey (orientSegment pr) bytes2 filename) := by
  have hlen : (base64RawURLEncode bytes).length = 43 := by
    have h43 : (b64EncodeNats bytes).length = 43 := by
      rw [b64EncodeNats_length, hl]
    simp [base64RawURLEncode, String.length, h43]
  have hlen2 : (base64RawURLEncode bytes2).length = 43 := by
    have h43 : (b64EncodeNats bytes2).length = 43 := by
      rw [b64EncodeNats_length, hl2]
    simp [base64RawURLEncode, String.length, h43]
  refine ⟨rfl, ?_, hlen, hlen2, fun hne => deriveKey_inj _ _ _ _ hb hb2 hne⟩
  unfold orientSegment orientSegmentFor
  rcases getVideoAspectRatio pr with e | a
  · right; right; rfl
  · by_cases ha : a = "16:9"
    · left; simp [ha]
    · by_cases hb9 : a = "9:16"
      · right; left; simp [ha, hb9]
      · right; right; simp [ha, hb9]

/-- C6: a video-upload request whose parsed media type is not exactly
"video/mp4" is rejected with the unsupported-type error before
staging: the trace is empty, so no temporary file is created, nothing
is written, no external process runs, and nothing downstream happens. -/
theorem C6_reject_non_mp4 (env : UploadEnv)
    (h1 : env.videoIDOk = true) (h2 : env.bearerOk = true) (h3 : env.jwtOk = true)
    (h4 : env.videoFound = true) (h5 : env.videoRecord.userID = env.userID)
    (h6 : env.bodySize ≤ maxUploadBytes) (h7 : env.parseFormOk = true)
    (h8 : env.formFileOk = true) (h9 : env.ctParseOk = true)
    (h10 : env.mediaType ≠ "video/mp4") :
    (runUploadVideo env).status = 400
    ∧ (runUploadVideo env).msg = "Unsupported video type"
    ∧ (runUploadVideo env).events = [] := by
  have h6' : ¬ maxUploadBytes < env.bodySize := not_lt.mpr h6
  simp [runUploadVideo, failRun, h1, h2, h3, h4, h5, h6', h7, h8, h9, h10]

/-- C7: a request body over the 1 GiB MaxBytesReader bound makes the
multipart parse fail: the run ends with the parse-failure response
whose underlying cause is the exceeded byte bound, the trace is empty
(so nothing is written to any temporary file and no upload or record
update happens), and the pipeline aborts before the S3 stage. -/
theorem C7_payload_too_large (env : UploadEnv)
    (h1 : env.videoIDOk = true) (h2 : env.bearerOk = true) (h3 : env.jwtOk = true)
    (h4 : env.videoFound = true) (h5 : env.videoRecord.userID = env.userID)
    (h6 : maxUploadBytes < env.bodySize) :
    (runUploadVideo env).status = 400
    ∧ (runUploadVideo env).msg = "Failed to parse form"
    ∧ (runUploadVideo env).cause = some FailCause.maxBytesExceeded
    ∧ (runUploadVideo env).events = []
    ∧ maxUploadBytes = 2 ^ 30 := by
  refine ⟨?_, ?_, ?_, ?_, rfl⟩ <;>
    simp [runUploadVideo, failRun, h1, h2, h3, h4, h5, h6]

/-- C9: in both upload handlers, when the target record exists but its
owner differs from the authenticated user, the handler answers 401
"Not the owner of this video" with an empty trace: no file on disk, no
S3 put, no database update. -/
theorem C9_ownership_guard (env : UploadEnv) (tenv : ThumbEnv)
    (h1 : env.videoIDOk = true) (h2 : env.bearerOk = true) (h3 : env.jwtOk = true)
    (h4 : env.videoFound = true) (h5 : env.videoRecord.userID ≠ env.userID)
    (t1 : tenv.videoIDOk = true) (t2 : tenv.bearerOk = true) (t3 : tenv.jwtOk = true)
    (t4 : tenv.parseFormOk = true) (t5 : tenv.formFileOk = true)
    (t6 : tenv.videoFound = true) (t7 : tenv.videoRecord.userID ≠ tenv.userID) :
    (runUploadVideo env).status = 401
    ∧ (runUploadVideo env).msg = "Not the owner of this video"
    ∧ (runUploadVideo env).events = []
    ∧ (runUploadThumbnail tenv).status = 401
    ∧ (runUploadThumbnail tenv).msg = "Not the owner of this video"
    ∧ (runUploadThumbnail tenv).events = [] := by
  refine ⟨?_, ?_, ?_, ?_, ?_, ?_⟩ <;>
    simp [runUploadVideo, runUploadThumbnail, failRun, h1, h2, h3, h4, h5,
      t1, t2, t3, t4, t5, t6, t7]

/-- splitN2 on a comma-free string returns the single original part. -/
theorem splitN2_no_comma (s : String) (h : ∀ c ∈ s.data, c ≠ ',') : splitN2 s = [s] := by
  unfold splitN2
  have hn : s.data.findIdx? (fun c => c = ',') = none := by
    rw [List.findIdx?_eq_none_iff]
    intro x hx
    simp [h x hx]
  rw [hn]

/-- C10: dbVideoToSignedVideo passes a record through unchanged with no
error when its reference is nil or empty, and returns an error with
the record (and so its reference) unchanged when the reference is
non-empty but has no comma — it never rewrites a reference it cannot
parse as bucket,key. -/
theorem C10_signed_passthrough (v : Video) (signOk : Bool) (signURL s : String) :
    (v.videoURL = none → dbVideoToSignedVideo signOk signURL v = ((v, none), []))
    ∧ (v.videoURL = some "" → dbVideoToSignedVideo signOk signURL v = ((v, none), []))
    ∧ (v.videoURL = some s → s ≠ "" → (∀ c ∈ s.data, c ≠ ',') →
        dbVideoToSignedVideo signOk signURL v =
          ((v, some "invalid video_url format"), [])) := by
  refine ⟨?_, ?_, ?_⟩
  · intro hv; simp [dbVideoToSignedVideo, hv]
  · intro hv; simp [dbVideoToSignedVideo, hv]
  · intro hv hne hc
    have hs : splitN2 s = [s] := splitN2_no_comma s hc
    simp [dbVideoToSignedVideo, hv, hne, hs]

/-- C8: in signed mode, reading a record whose stored reference parses
as bucket,key mints exactly one presigned URL with the fixed 15-minute
expiry; the signed URL appears only in the response body, the trace
holds no database update, and on signing failure the stored reference
is not touched either. -/
theorem C8_signed_read (env : GetEnv) (s b k : String)
    (h1 : env.videoIDOk = true) (h2 : env.videoFound = true)
    (h3 : env.videoRecord.videoURL = some s) (h4 : s ≠ "")
    (h5 : splitN2 s = [b, k]) :
    (runVideoGet env).events = [Event.presign b k 15 env.presignOk]
    ∧ dbUpdates (runVideoGet env).events = []
    ∧ (env.presignOk = true →
        (runVideoGet env).status = 200
        ∧ (runVideoGet env).body = some
            { id := env.videoRecord.id,
              userID := env.videoRecord.userID,
              thumbnailURL := env.videoRecord.thumbnailURL,
              videoURL := some env.presignURL })
    ∧ (env.presignOk = false →
        (runVideoGet env).status = 500
        ∧ (runVideoGet env).msg = "Failed to sign video URL"
        ∧ (runVideoGet env).body = none) := by
  cases hp : env.presignOk <;>
    refine ⟨?_, ?_, ?_, ?_⟩ <;>
    simp [runVideoGet, dbVideoToSignedVideo, failRun, dbUpdates, h1, h2, h3, h4, h5, hp,
      List.filterMap_cons]

theorem dbCommits_append (a b : List Event) :
    dbCommits (a ++ b) = dbCommits a ++ dbCommits b := by
  simp [dbCommits, List.filterMap_append]

theorem dbCommits_eq_nil (l : List Event) (h : ∀ e ∈ l, isDbUpdateEv e = false) :
    dbCommits l = [] := by
  induction l with
  | nil => rfl
  | cons x xs ih =>
      have hx := h x (by simp)
      have hxs := ih fun e he => h e (by simp [he])
      cases x <;> simp_all [dbCommits, isDbUpdateEv, List.filterMap_cons]

/-- Every exit of the tail stage removes the chosen processed path and
then the staged temp file, and creates nothing, so the files left are
the files staged before, minus those two. -/
theorem stage_files (env : UploadEnv) (pre : List Event) (p : String) :
    filesRemaining (uploadFromProcessed env pre p).events =
      ((filesAux [] pre).filter fun q => q ≠ p).filter fun q => q ≠ tempFileName := by
  unfold uploadFromProcessed
  split_ifs with ho hr hp hu
  · simp [failRun, filesRemaining, filesAux, List.foldl_append, fileStep]
  · simp [failRun, filesRemaining, filesAux, List.foldl_append, fileStep]
  · simp [failRun, filesRemaining, filesAux, List.foldl_append, fileStep]
  · simp [failRun, filesRemaining, filesAux, List.foldl_append, fileStep]
  · simp only [failRun]
    rcases signed_events env.presignOk env.presignURL
        { id := env.videoRecord.id, userID := env.videoRecord.userID,
          thumbnailURL := env.videoRecord.thumbnailURL,
          videoURL := some (env.s3Bucket ++ "," ++
            deriveKey (orientSegment env.probe) env.randomBytes env.filename) }
        with hs | ⟨b, k, hs⟩ <;>
      split <;>
      simp [failRun, hs, filesRemaining, filesAux, List.foldl_append, fileStep]

/-- When the tail stage does not succeed and does not fail at the
response-signing step, no database update is committed (given none was
committed before it). -/
theorem stage_commits (env : UploadEnv) (pre : List Event) (p : String)
    (hpre : dbCommits pre = [])
    (hst : (uploadFromProcessed env pre p).status ≠ 200)
    (hmsg : (uploadFromProcessed env pre p).msg ≠ "Failed to generate presigned URL") :
    dbCommits (uploadFromProcessed env pre p).events = [] := by
  unfold uploadFromProcessed at hst hmsg ⊢
  split_ifs at hst hmsg ⊢ with ho hr hp hu
  · simp only [failRun, List.append_assoc]
    rw [dbCommits_append, hpre]
    simp [dbCommits, List.filterMap_cons, List.filterMap_append]
  · simp only [failRun, List.append_assoc]
    rw [dbCommits_append, hpre]
    simp [dbCommits, List.filterMap_cons, List.filterMap_append]
  · simp only [failRun, List.append_assoc]
    rw [dbCommits_append, hpre]
    simp [dbCommits, List.filterMap_cons, List.filterMap_append]
  · have hu2 : env.updateOk = false := by revert hu; cases env.updateOk <;> simp
    simp only [failRun, List.append_assoc, hu2]
    rw [dbCommits_append, hpre]
    simp [dbCommits, List.filterMap_cons, List.filterMap_append]
  · simp only [failRun] at hst hmsg ⊢
    rcases signed_events env.presignOk env.presignURL
        { id := env.videoRecord.id, userID := env.videoRecord.userID,
          thumbnailURL := env.videoRecord.thumbnailURL,
          videoURL := some (env.s3Bucket ++ "," ++
            deriveKey (orientSegment env.probe) env.randomBytes env.filename) }
        with hs | ⟨b, k, hs⟩ <;>
      split at hst <;>
      simp_all [failRun]

/-- A concrete upload run: the remux attempt fails leaving a partial
faststart output, the re-encode succeeds, and the S3 upload fails. -/
def envC3 : UploadEnv :=
  { videoIDOk := true, bearerOk := true, jwtOk := true, userID := 7,
    videoFound := true,
    videoRecord := { id := 1, userID := 7, thumbnailURL := none, videoURL := none },
    bodySize := 4, parseFormOk := true, formFileOk := true, fileSize := 4,
    filename := "clip.mp4", ctParseOk := true, mediaType := "video/mp4",
    createTempOk := true, copyOk := true,
    remuxOk := false, remuxLeftoverFile := true, remuxStderr := "bad stream",
    reencodeOk := true, reencodeLeftoverFile := false, reencodeErrMsg := "",
    reencodeStderr := "", openProcessedOk := true,
    probe := ProbeOutcome.streams [(1920, 1080)],
    randOk := true, randomBytes := List.replicate 32 0,
    s3Bucket := "tube", putOk := false, updateOk := true,
    presignOk := true, presignURL := "signed-url" }

/-- C3 counterexample: this run fails at the upload stage, yet the
partial output of the failed remux attempt is still on disk when the
run ends — the handler removes only the staged temp file and the
chosen processed output, never the failed attempt's partial file. -/
theorem C3_counterexample :
    (runUploadVideo envC3).status = 500
    ∧ (runUploadVideo envC3).msg = "Failed to upload video to S3"
    ∧ filesRemaining (runUploadVideo envC3).events = ["tubely-upload.mp4.faststart.mp4"]
    ∧ dbCommits (runUploadVideo envC3).events = [] := by decide

/-- C3 amended: after a run that fails at any stage other than the
final response-signing step, the staged temp file is gone, the chosen
normalizer output is gone, and no video-reference update is committed;
the only files that can remain are partial outputs left behind by a
FAILED ffmpeg attempt (remux, or re-encode when both failed), which
the handler never removes. -/
theorem C3_amended_cleanup (env : UploadEnv)
    (hst : (runUploadVideo env).status ≠ 200)
    (hmsg : (runUploadVideo env).msg ≠ "Failed to generate presigned URL") :
    dbCommits (runUploadVideo env).events = []
    ∧ tempFileName ∉ filesRemaining (runUploadVideo env).events
    ∧ ∀ q ∈ filesRemaining (runUploadVideo env).events,
        (q = tempFileName ++ ".faststart.mp4" ∧ env.remuxOk = false
          ∧ env.remuxLeftoverFile = true)
        ∨ (q = tempFileName ++ ".reencode.mp4" ∧ env.remuxOk = false
          ∧ env.reencodeOk = false ∧ env.reencodeLeftoverFile = true) := by
  rcases run_cases env with hA | hB | ⟨er, hner, hC⟩ | ⟨p, hnok, hD⟩
  · refine ⟨?_, ?_, ?_⟩ <;> simp [hA, dbCommits, filesRemaining, filesAux]
  · refine ⟨?_, ?_, ?_⟩ <;>
      simp [hB, failRun, dbCommits, filesRemaining, filesAux, fileStep,
        List.filterMap_cons, tempFileName]
  · have hrem : env.remuxOk = false := by
      cases hre : env.remuxOk
      · rfl
      · exfalso; simp [processVideoForFastStart, hre] at hner
    have hren : env.reencodeOk = false := by
      cases hre : env.reencodeOk
      · rfl
      · exfalso; simp [processVideoForFastStart, hrem, hre] at hner
    cases hL1 : env.remuxLeftoverFile <;> cases hL2 : env.reencodeLeftoverFile <;>
      refine ⟨?_, ?_, ?_⟩ <;>
      simp [hC, failRun, processVideoForFastStart, hrem, hren, hL1, hL2, dbCommits,
        List.filterMap_cons, List.filterMap_append, filesRemaining, filesAux,
        List.foldl_append, fileStep, tempFileName]
  · have hpre : dbCommits ([Event.fileCreate tempFileName] ++
        [Event.fileWrite tempFileName env.fileSize] ++
        (processVideoForFastStart env tempFileName).2) = [] := by
      apply dbCommits_eq_nil
      intro e he
      rcases List.mem_append.mp he with h | h
      · rcases List.mem_append.mp h with h | h <;>
          (rw [List.mem_singleton.mp h]; simp [isDbUpdateEv])
      · rcases norm_events_kinds env tempFileName e h with hk | hk <;> cases e <;>
          simp_all [isProcRunEv, isFileCreateEv, isDbUpdateEv]
    rw [hD] at hst hmsg ⊢
    refine ⟨stage_commits env _ p hpre hst hmsg, ?_, ?_⟩ <;>
      rw [stage_files env _ p] <;>
      cases hre : env.remuxOk
    case _ =>
      cases hren : env.reencodeOk
      · exfalso; simp [processVideoForFastStart, hre, hren] at hnok
      · have hp2 : p = tempFileName ++ ".reencode.mp4" := by
          simp [processVideoForFastStart, hre, hren] at hnok
          exact hnok.symm
        subst hp2
        cases hL1 : env.remuxLeftoverFile <;>
          simp [processVideoForFastStart, hre, hren, hL1, filesAux, fileStep,
            List.foldl_append, tempFileName]
    case _ =>
      have hp2 : p = tempFileName ++ ".faststart.mp4" := by
        simp [processVideoForFastStart, hre] at hnok
        exact hnok.symm
      subst hp2
      simp [processVideoForFastStart, hre, filesAux, fileStep,
        List.foldl_append, tempFileName]
    case _ =>
      cases hren : env.reencodeOk
      · exfalso; simp [processVideoForFastStart, hre, hren] at hnok
      · have hp2 : p = tempFileName ++ ".reencode.mp4" := by
          simp [processVideoForFastStart, hre, hren] at hnok
          exact hnok.symm
        subst hp2
        cases hL1 : env.remuxLeftoverFile <;>
          simp [processVideoForFastStart, hre, hren, hL1, hL1, filesAux, fileStep,
            List.foldl_append, tempFileName]
    case _ =>
      have hp2 : p = tempFileName ++ ".faststart.mp4" := by
        simp [processVideoForFastStart, hre] at hnok
        exact hnok.symm
      subst hp2
      simp [processVideoForFastStart, hre, filesAux, fileStep,
        List.foldl_append, tempFileName]

/-- Environment for the C2 witness: remux fails, re-encode succeeds. -/
def envC2w : UploadEnv :=
  { videoIDOk := true, bearerOk := true, jwtOk := true, userID := 7,
    videoFound := true,
    videoRecord := { id := 1, userID := 7, thumbnailURL := none, videoURL := none },
    bodySize := 4, parseFormOk := true, formFileOk := true, fileSize := 4,
    filename := "clip.mp4", ctParseOk := true, mediaType := "video/mp4",
    createTempOk := true, copyOk := true,
    remuxOk := false, remuxLeftoverFile := false, remuxStderr := "bad",
    reencodeOk := true, reencodeLeftoverFile := false, reencodeErrMsg := "",
    reencodeStderr := "", openProcessedOk := true, probe := ProbeOutcome.procFail,
    randOk := true, randomBytes := [], s3Bucket := "tube", putOk := true,
    updateOk := true, presignOk := true, presignURL := "u" }

/-- C2 witness at a concrete input. -/
theorem C2_witness :
    (processVideoForFastStart envC2w "in.mp4").1 = Except.ok ("in.mp4" ++ ".reencode.mp4") :=
  (C2_faststart_two_phase envC2w "in.mp4").2.1 rfl rfl

/-- Environment for the C3 witness: the staging copy fails. -/
def envC3w : UploadEnv :=
  { videoIDOk := true, bearerOk := true, jwtOk := true, userID := 7,
    videoFound := true,
    videoRecord := { id := 1, userID := 7, thumbnailURL := none, videoURL := none },
    bodySize := 4, parseFormOk := true, formFileOk := true, fileSize := 4,
    filename := "clip.mp4", ctParseOk := true, mediaType := "video/mp4",
    createTempOk := true, copyOk := false,
    remuxOk := false, remuxLeftoverFile := false, remuxStderr := "",
    reencodeOk := false, reencodeLeftoverFile := false, reencodeErrMsg := "",
    reencodeStderr := "", openProcessedOk := true, probe := ProbeOutcome.procFail,
    randOk := true, randomBytes := [], s3Bucket := "tube", putOk := true,
    updateOk := true, presignOk := true, presignURL := "u" }

/-- C3 amended witness at a concrete failing run. -/
theorem C3_witness :
    dbCommits (runUploadVideo envC3w).events = []
    ∧ tempFileName ∉ filesRemaining (runUploadVideo envC3w).events
    ∧ ∀ q ∈ filesRemaining (runUploadVideo envC3w).events,
        (q = tempFileName ++ ".faststart.mp4" ∧ envC3w.remuxOk = false
          ∧ envC3w.remuxLeftoverFile = true)
        ∨ (q = tempFileName ++ ".reencode.mp4" ∧ envC3w.remuxOk = false
          ∧ envC3w.reencodeOk = false ∧ envC3w.reencodeLeftoverFile = true) :=
  C3_amended_cleanup envC3w (by decide) (by decide)

/-- C4 witness: 1920x1080-style, 9:16-style and square inputs. -/
theorem C4_witness :
    orientSegment (ProbeOutcome.streams [((16 : Int), (9 : Int))]) = "landscape/"
    ∧ orientSegment (ProbeOutcome.streams [((9 : Int), (16 : Int))]) = "portrait/"
    ∧ orientSegment (ProbeOutcome.streams [((1 : Int), (1 : Int))]) = "other/" :=
  ⟨(C4_aspect_classification 16 9 []).1 (by norm_num) (by norm_num),
   (C4_aspect_classification 9 16 []).2.1 (by norm_num) (by norm_num),
   (C4_aspect_classification 1 1 []).2.2.1 (by norm_num) (by norm_num) (by norm_num)⟩

/-- The 32-byte sequences for the C5 witness. -/
def bytesC5a : List Nat := List.replicate 32 0

/-- A second, distinct 32-byte sequence for the C5 witness. -/
def bytesC5b : List Nat := 1 :: List.replicate 31 0

/-- C5 witness: two distinct 32-byte sequences give distinct keys. -/
theorem C5_witness :
    deriveKey (orientSegment ProbeOutcome.procFail) bytesC5a "v.mp4" ≠
      deriveKey (orientSegment ProbeOutcome.procFail) bytesC5b "v.mp4"
    ∧ (orientSegment ProbeOutcome.procFail = "landscape/"
        ∨ orientSegment ProbeOutcome.procFail = "portrait/"
        ∨ orientSegment ProbeOutcome.procFail = "other/") :=
  ⟨(C5_key_derivation ProbeOutcome.procFail bytesC5a bytesC5b "v.mp4"
      (by decide) (by decide) (by decide) (by decide)).2.2.2.2 (by decide),
   (C5_key_derivation ProbeOutcome.procFail bytesC5a bytesC5b "v.mp4"
      (by decide) (by decide) (by decide) (by decide)).2.1⟩

/-- Environment for the C6 witness: a PNG declared on the video route. -/
def envC6w : UploadEnv :=
  { videoIDOk := true, bearerOk := true, jwtOk := true, userID := 7,
    videoFound := true,
    videoRecord := { id := 1, userID := 7, thumbnailURL := none, videoURL := none },
    bodySize := 4, parseFormOk := true, formFileOk := true, fileSize := 4,
    filename := "pic.png", ctParseOk := true, mediaType := "image/png",
    createTempOk := true, copyOk := true,
    remuxOk := true, remuxLeftoverFile := false, remuxStderr := "",
    reencodeOk := true, reencodeLeftoverFile := false, reencodeErrMsg := "",
    reencodeStderr := "", openProcessedOk := true, probe := ProbeOutcome.procFail,
    randOk := true, randomBytes := [], s3Bucket := "tube", putOk := true,
    updateOk := true, presignOk := true, presignURL := "u" }

/-- C6 witness: the PNG upload is rejected with an empty trace. -/
theorem C6_witness :
    (runUploadVideo envC6w).status = 400
    ∧ (runUploadVideo envC6w).msg = "Unsupported video type"
    ∧ (runUploadVideo envC6w).events = [] :=
  C6_reject_non_mp4 envC6w rfl rfl rfl rfl rfl (by decide) rfl rfl rfl (by decide)

/-- Environment for the C7 witness: a body one byte over 1 GiB. -/
def envC7w : UploadEnv :=
  { videoIDOk := true, bearerOk := true, jwtOk := true, userID := 7,
    videoFound := true,
    videoRecord := { id := 1, userID := 7, thumbnailURL := none, videoURL := none },
    bodySize := 2 ^ 30 + 1, parseFormOk := true, formFileOk := true, fileSize := 4,
    filename := "clip.mp4", ctParseOk := true, mediaType := "video/mp4",
    createTempOk := true, copyOk := true,
    remuxOk := true, remuxLeftoverFile := false, remuxStderr := "",
    reencodeOk := true, reencodeLeftoverFile := false, reencodeErrMsg := "",
    reencodeStderr := "", openProcessedOk := true, probe := ProbeOutcome.procFail,
    randOk := true, randomBytes := [], s3Bucket := "tube", putOk := true,
    updateOk := true, presignOk := true, presignURL := "u" }

/-- C7 witness: the oversized body fails the parse with the byte-bound
cause and an empty trace. -/
theorem C7_witness :
    (runUploadVideo envC7w).status = 400
    ∧ (runUploadVideo envC7w).msg = "Failed to parse form"
    ∧ (runUploadVideo envC7w).cause = some FailCause.maxBytesExceeded
    ∧ (runUploadVideo envC7w).events = []
    ∧ maxUploadBytes = 2 ^ 30 :=
  C7_payload_too_large envC7w rfl rfl rfl rfl rfl (by decide)

/-- Environment for the C8 witness. -/
def envC8w : GetEnv :=
  { videoIDOk := true, videoFound := true,
    videoRecord := { id := 1, userID := 7, thumbnailURL := none,
                     videoURL := some "tube,landscape/x.mp4" },
    presignOk := true, presignURL := "https://signed.example/x" }

/-- C8 witness: a signed-mode read mints one 15-minute presign and
leaves the stored reference alone. -/
theorem C8_witness :
    (runVideoGet envC8w).events = [Event.presign "tube" "landscape/x.mp4" 15 envC8w.presignOk]
    ∧ dbUpdates (runVideoGet envC8w).events = []
    ∧ (envC8w.presignOk = true →
        (runVideoGet envC8w).status = 200
        ∧ (runVideoGet envC8w).body = some
            { id := envC8w.videoRecord.id,
              userID := envC8w.videoRecord.userID,
              thumbnailURL := envC8w.videoRecord.thumbnailURL,
              videoURL := some envC8w.presignURL })
    ∧ (envC8w.presignOk = false →
        (runVideoGet envC8w).status = 500
        ∧ (runVideoGet envC8w).msg = "Failed to sign video URL"
        ∧ (runVideoGet envC8w).body = none) :=
  C8_signed_read envC8w "tube,landscape/x.mp4" "tube" "landscape/x.mp4"
    rfl rfl rfl (by decide) (by decide)

/-- Environments for the C9 witness: owner 7, caller 8. -/
def envC9w : UploadEnv :=
  { videoIDOk := true, bearerOk := true, jwtOk := true, userID := 8,
    videoFound := true,
    videoRecord := { id := 1, userID := 7, thumbnailURL := none, videoURL := none },
    bodySize := 4, parseFormOk := true, formFileOk := true, fileSize := 4,
    filename := "clip.mp4", ctParseOk := true, mediaType := "video/mp4",
    createTempOk := true, copyOk := true,
    remuxOk := true, remuxLeftoverFile := false, remuxStderr := "",
    reencodeOk := true, reencodeLeftoverFile := false, reencodeErrMsg := "",
    reencodeStderr := "", openProcessedOk := true, probe := ProbeOutcome.procFail,
    randOk := true, randomBytes := [], s3Bucket := "tube", putOk := true,
    updateOk := true, presignOk := true, presignURL := "u" }

/-- The thumbnail-side environment for the C9 witness. -/
def tenvC9w : ThumbEnv :=
  { videoIDOk := true, bearerOk := true, jwtOk := true, userID := 8,
    parseFormOk := true, formFileOk := true, fileSize := 4,
    ctParseOk := true, mediaType := "image/png", videoFound := true,
    videoRecord := { id := 1, userID := 7, thumbnailURL := none, videoURL := none },
    randOk := true, randomBytes := [], assetsRoot := "assets", port := "8091",
    createOk := true, copyOk := true, updateOk := true }

/-- C9 witness: both handlers answer 401 with empty traces for a
non-owner. -/
theorem C9_witness :
    (runUploadVideo envC9w).status = 401
    ∧ (runUploadVideo envC9w).msg = "Not the owner of this video"
    ∧ (runUploadVideo envC9w).events = []
    ∧ (runUploadThumbnail tenvC9w).status = 401
    ∧ (runUploadThumbnail tenvC9w).msg = "Not the owner of this video"
    ∧ (runUploadThumbnail tenvC9w).events = [] :=
  C9_ownership_guard envC9w tenvC9w rfl rfl rfl rfl (by decide)
    rfl rfl rfl rfl rfl rfl (by decide)

/-- The record for the C10 witness: a comma-free non-empty reference. -/
def videoC10w : Video :=
  { id := 1, userID := 7, thumbnailURL := none, videoURL := some "nocomma" }

/-- C10 witness: the unparsable reference yields the error with the
record unchanged. -/
theorem C10_witness :
    dbVideoToSignedVideo true "u" videoC10w =
      ((videoC10w, some "invalid video_url format"), []) :=
  (C10_signed_passthrough videoC10w true "u" "nocomma").2.2 rfl (by decide) (by decide)
